import Mathlib

/-!
Shallow embedding of the billing backend in `src/index.js` (a single Express
application bridging a Stripe-like payment provider and a MySQL `usuarios`
table), together with proofs about its webhook-driven reconciliation logic.

Modelling conventions:
* MySQL datetime values are modelled symbolically by the inductive `Timestamp`:
  `Timestamp.clock t` is `NOW()` at tick `t`, and `addMonths` / `addYears`
  model `DATE_ADD(_, INTERVAL n MONTH)` / `DATE_ADD(_, INTERVAL n YEAR)`.
* The `usuarios` table is a list of rows; `SELECT ... WHERE email = ?` is
  `List.find?` on the email column, `UPDATE ... WHERE email = ?` maps the
  field assignments over every matching row, and `INSERT` appends a row.
* `crypto.randomBytes(32).toString` with base64url encoding is modelled by a
  deterministic generator `generateApiKey` drawing from a seed counter kept in
  `AppState`; the only property of the real generator the proofs use is that
  its output is a nonempty string.
* External provider lookups (`stripe.subscriptions.retrieve`,
  `stripe.customers.retrieve`) are parameters of type `String → Option _`;
  a `none` result models the retrieve call throwing, which the handler catches
  and logs as an error.  Handlers with such calls return the new state paired
  with a Bool recording whether their catch block logged an error.
* JavaScript truthiness tests on strings (`if (!email)`) are modelled
  explicitly: both a missing value and the empty string are falsy.
-/

/-- Symbolic MySQL datetime expressions: `clock t` is `NOW()` at tick `t`;
`addMonths`/`addYears` are `DATE_ADD` with a MONTH/YEAR interval. -/
inductive Timestamp where
  | clock (tick : Nat)
  | addMonths (t : Timestamp) (n : Nat)
  | addYears (t : Timestamp) (n : Nat)
deriving DecidableEq

/-- A row of the `usuarios` table created by `initDb` in `src/index.js`
(the auto-increment `id` column plays no role in the handlers and is
omitted). -/
structure Usuario where
  email : String
  nome : Option String
  stripe_customer_id : Option String
  status : String
  plano : Option String
  api_key : Option String
  data_criacao : Timestamp
  data_assinatura : Option Timestamp
  data_renovacao : Option Timestamp
  data_modificacao : Option Timestamp
deriving DecidableEq

/-- The `usuarios` table. -/
abbrev Store := List Usuario

/-- `SELECT ... FROM usuarios WHERE email = ?` returning the first row. -/
def findByEmail (l : Store) (e : String) : Option Usuario :=
  l.find? (fun u => u.email == e)

/-- `UPDATE usuarios SET ... WHERE email = ?`: apply the field assignments
`f` to every row whose email matches. -/
def updateWhereEmail (l : Store) (e : String) (f : Usuario → Usuario) : Store :=
  l.map (fun u => if u.email == e then f u else u)

/-- `generateApiKey` in `src/index.js` returns
`crypto.randomBytes(32).toString` in base64url encoding: a fresh, effectively
unique, always nonempty string.  The randomness is modelled by a seed
counter; the proofs rely only on the output being nonempty, which is true of
any base64url rendering of 32 random bytes. -/
def generateApiKey (seed : Nat) : String :=
  "ak_" ++ toString seed

/-- Mutable program state: the `usuarios` table plus the entropy counter
feeding `generateApiKey`. -/
structure AppState where
  users : Store
  seed : Nat
deriving DecidableEq

/-- The `metadata` object of a checkout session. -/
structure CheckoutMetadata where
  plan : Option String
deriving DecidableEq

/-- The `customer_details` object of a checkout session. -/
structure CustomerDetails where
  email : Option String
deriving DecidableEq

/-- The fields of a `checkout.session.completed` event object read by
`handleCheckoutSessionCompleted`. -/
structure CheckoutSession where
  customer_details : Option CustomerDetails
  customer : Option String
  metadata : Option CheckoutMetadata
deriving DecidableEq

/-- `session.customer_details && session.customer_details.email`. -/
def checkoutEmail (s : CheckoutSession) : Option String :=
  s.customer_details.bind (fun d => d.email)

/-- `session.metadata ? session.metadata.plan : "desconhecido"`. -/
def checkoutPlanName (s : CheckoutSession) : Option String :=
  match s.metadata with
  | some m => m.plan
  | none => some "desconhecido"

/-- The field assignments of the `UPDATE` statement in
`handleCheckoutSessionCompleted` (note: `data_modificacao` is not among
them). -/
def checkoutUpdate (session : CheckoutSession) (now : Nat) (apiKey : String)
    (u : Usuario) : Usuario :=
  { u with
    stripe_customer_id := session.customer
    status := "ativo"
    plano := checkoutPlanName session
    api_key := some apiKey
    data_assinatura := some (Timestamp.clock now)
    data_renovacao := some (Timestamp.addMonths (Timestamp.clock now) 3) }

/-- The row inserted by `handleCheckoutSessionCompleted` when no row exists
for the email (`data_criacao` comes from the column default
`CURRENT_TIMESTAMP`; `nome` and `data_modificacao` stay NULL). -/
def checkoutInsert (session : CheckoutSession) (now : Nat) (email : String)
    (apiKey : String) : Usuario :=
  { email := email
    nome := none
    stripe_customer_id := session.customer
    status := "ativo"
    plano := checkoutPlanName session
    api_key := some apiKey
    data_criacao := Timestamp.clock now
    data_assinatura := some (Timestamp.clock now)
    data_renovacao := some (Timestamp.addMonths (Timestamp.clock now) 3)
    data_modificacao := none }

/-- `handleCheckoutSessionCompleted` from `src/index.js`: no-op when the
session carries no (truthy) email; otherwise insert a fresh row or update the
existing one, reissuing an API key only when the stored one is falsy. -/
def handleCheckoutSessionCompleted (session : CheckoutSession) (now : Nat)
    (st : AppState) : AppState :=
  match checkoutEmail session with
  | none => st
  | some email =>
    if email == "" then st
    else
      match findByEmail st.users email with
      | none =>
        { users := st.users ++ [checkoutInsert session now email (generateApiKey st.seed)]
          seed := st.seed + 1 }
      | some row =>
        match row.api_key with
        | some k =>
          if k == "" then
            { users := updateWhereEmail st.users email
                (checkoutUpdate session now (generateApiKey st.seed))
              seed := st.seed + 1 }
          else
            { st with users := updateWhereEmail st.users email (checkoutUpdate session now k) }
        | none =>
          { users := updateWhereEmail st.users email
              (checkoutUpdate session now (generateApiKey st.seed))
            seed := st.seed + 1 }

/-- A subscription item's `plan` object as read by `handleInvoicePaid`. -/
structure StripePlan where
  interval : String
  interval_count : Nat
deriving DecidableEq

/-- A retrieved subscription: `subscription.items.data`. -/
structure StripeSubscription where
  items : List StripePlan
deriving DecidableEq

/-- A retrieved customer. -/
structure StripeCustomer where
  email : Option String
deriving DecidableEq

/-- The fields of an `invoice.paid` event object read by
`handleInvoicePaid`. -/
structure Invoice where
  subscription : Option String
  customer : Option String
deriving DecidableEq

/-- The plan-name and renewal-date derivation inlined in `handleInvoicePaid`
(lines 400-411 of `src/index.js`): `year` (any count) is the annual plan with
a one-year renewal, `month`/3 the quarterly plan with a three-month renewal,
and everything else the custom plan with a ONE-month renewal. -/
def resolvePlan (interval : String) (intervalCount : Nat) (t0 : Timestamp) :
    String × Timestamp :=
  if interval == "year" then
    ("Plano Anual", Timestamp.addYears t0 1)
  else if interval == "month" && intervalCount == 3 then
    ("Plano Trimestral", Timestamp.addMonths t0 3)
  else
    ("Plano Personalizado", Timestamp.addMonths t0 1)

/-- The field assignments of the `UPDATE` statement in `handleInvoicePaid`. -/
def invoiceUpdate (pr : String × Timestamp) (now : Nat) (u : Usuario) : Usuario :=
  { u with
    status := "ativo"
    plano := some pr.1
    data_renovacao := some pr.2
    data_modificacao := some (Timestamp.clock now) }

/-- `handleInvoicePaid` from `src/index.js`.  `subs` and `custs` model the
provider retrieve calls; a `none` lookup (or an empty `items` array) models
the thrown error that the catch block logs, reported in the Bool component.
A customer without an email makes the `UPDATE`'s `WHERE email = ?` clause
match nothing. -/
def handleInvoicePaid (subs : String → Option StripeSubscription)
    (custs : String → Option StripeCustomer) (invoice : Invoice) (now : Nat)
    (st : AppState) : AppState × Bool :=
  match invoice.subscription, invoice.customer with
  | some sid, some cid =>
    if sid == "" || cid == "" then (st, false)
    else
      match subs sid with
      | none => (st, true)
      | some subscription =>
        match custs cid with
        | none => (st, true)
        | some customer =>
          match subscription.items.head? with
          | none => (st, true)
          | some plan =>
            match customer.email with
            | none => (st, false)
            | some email =>
              let pr := resolvePlan plan.interval plan.interval_count (Timestamp.clock now)
              ({ st with users := updateWhereEmail st.users email (invoiceUpdate pr now) }, false)
  | _, _ => (st, false)

/-- The fields of a `customer.subscription.deleted` event object read by
`handleSubscriptionCanceled`. -/
structure SubscriptionObj where
  customer : Option String
deriving DecidableEq

/-- The field assignments of the `UPDATE` statement in
`handleSubscriptionCanceled`. -/
def cancelUpdate (now : Nat) (u : Usuario) : Usuario :=
  { u with
    status := "inativo"
    data_modificacao := some (Timestamp.clock now) }

/-- `handleSubscriptionCanceled` from `src/index.js`. -/
def handleSubscriptionCanceled (custs : String → Option StripeCustomer)
    (sub : SubscriptionObj) (now : Nat) (st : AppState) : AppState × Bool :=
  match sub.customer with
  | none => (st, false)
  | some cid =>
    if cid == "" then (st, false)
    else
      match custs cid with
      | none => (st, true)
      | some customer =>
        match customer.email with
        | none => (st, false)
        | some email =>
          ({ st with users := updateWhereEmail st.users email (cancelUpdate now) }, false)

/-- The discriminated union of webhook event kinds dispatched by the
`switch` statement of the `POST /webhook-stripe` route. -/
inductive StripeEvent where
  | checkoutSessionCompleted (session : CheckoutSession)
  | invoicePaid (invoice : Invoice)
  | subscriptionDeleted (sub : SubscriptionObj)
  | other (kind : String)
deriving DecidableEq

/-- Dispatch of a verified event to its handler (`switch (event.type)`);
unrecognized kinds are logged and change nothing.  The Bool records whether
the invoked handler's catch block logged an error. -/
def applyEvent (subs : String → Option StripeSubscription)
    (custs : String → Option StripeCustomer) (ev : StripeEvent) (now : Nat)
    (st : AppState) : AppState × Bool :=
  match ev with
  | StripeEvent.checkoutSessionCompleted session =>
    (handleCheckoutSessionCompleted session now st, false)
  | StripeEvent.invoicePaid invoice => handleInvoicePaid subs custs invoice now st
  | StripeEvent.subscriptionDeleted sub => handleSubscriptionCanceled custs sub now st
  | StripeEvent.other _ => (st, false)

/-- Apply a sequence of verified events, each with its own clock reading. -/
def applyEvents (subs : String → Option StripeSubscription)
    (custs : String → Option StripeCustomer) (evs : List (StripeEvent × Nat))
    (st : AppState) : AppState :=
  evs.foldl (fun s p => (applyEvent subs custs p.1 p.2 s).1) st

/-- Responses of the `POST /webhook-stripe` route: a 400 when
`stripe.webhooks.constructEvent` throws, otherwise the JSON body with
status success. -/
inductive WebhookResponse where
  | webhookError (msg : String)
  | success
deriving DecidableEq

/-- The `POST /webhook-stripe` route.  `verified` is the outcome of
signature verification (`stripe.webhooks.constructEvent`): an error yields a
400 and nothing is dispatched; a verified event is dispatched and the route
answers success unconditionally. -/
def webhookStripe (subs : String → Option StripeSubscription)
    (custs : String → Option StripeCustomer)
    (verified : Except String StripeEvent) (now : Nat) (st : AppState) :
    WebhookResponse × AppState :=
  match verified with
  | Except.error msg => (WebhookResponse.webhookError msg, st)
  | Except.ok ev => (WebhookResponse.success, (applyEvent subs custs ev now st).1)

/-- The plan data the `POST /api/create-checkout-session` route configures
for a recognized plan id. -/
structure CheckoutPlan where
  amount : Nat
  interval : String
  intervalCount : Nat
  planName : String
deriving DecidableEq

/-- Outcome of the `POST /api/create-checkout-session` route's plan
validation: a 400 with a success-false error body, or a checkout session
created from the resolved plan data. -/
inductive CreateCheckoutResult where
  | badRequest (error : String)
  | sessionCreated (plan : CheckoutPlan)
deriving DecidableEq

/-- The plan-id validation and catalog lookup of
`POST /api/create-checkout-session` (lines 253-274 of `src/index.js`).
A missing or falsy `planId` is rejected before the catalog branch. -/
def createCheckoutSessionRoute (planId : Option String) : CreateCheckoutResult :=
  match planId with
  | none => CreateCheckoutResult.badRequest "Plano não especificado"
  | some pid =>
    if pid == "" then CreateCheckoutResult.badRequest "Plano não especificado"
    else if pid == "trimestral" then
      CreateCheckoutResult.sessionCreated
        { amount := 7500, interval := "month", intervalCount := 3
          planName := "Plano Trimestral" }
    else if pid == "anual" then
      CreateCheckoutResult.sessionCreated
        { amount := 18000, interval := "year", intervalCount := 1
          planName := "Plano Anual" }
    else CreateCheckoutResult.badRequest "Plano inválido"

/-- Erase the time-derived mutable fields of a row (`data_assinatura`,
`data_renovacao`, `data_modificacao`), for statements that hold up to
timestamps. -/
def Usuario.eraseTimeFields (u : Usuario) : Usuario :=
  { u with
    data_assinatura := none
    data_renovacao := none
    data_modificacao := none }

/-- Erase the time-derived fields of every row of the table. -/
def eraseTimes (l : Store) : Store :=
  l.map Usuario.eraseTimeFields

/-- The access token stored for an email, if any. -/
def tokenOf (l : Store) (e : String) : Option String :=
  (findByEmail l e).bind (fun u => u.api_key)

/-! Helper lemmas about the table operations. -/

theorem generateApiKey_ne_empty (seed : Nat) : generateApiKey seed ≠ "" := by
  intro h
  have h2 := congrArg String.data h
  simp [generateApiKey] at h2

theorem findByEmail_cons (u : Usuario) (l : Store) (e : String) :
    findByEmail (u :: l) e = if u.email == e then some u else findByEmail l e := by
  by_cases h : u.email = e
  · simp [findByEmail, h]
  · simp [findByEmail, h]

theorem updateWhereEmail_cons (u : Usuario) (l : Store) (e : String)
    (f : Usuario → Usuario) :
    updateWhereEmail (u :: l) e f =
      (if u.email == e then f u else u) :: updateWhereEmail l e f := rfl

theorem findByEmail_updateWhereEmail_self (l : Store) (e : String)
    (f : Usuario → Usuario) (hf : ∀ u, (f u).email = u.email) :
    findByEmail (updateWhereEmail l e f) e = (findByEmail l e).map f := by
  induction l with
  | nil => rfl
  | cons u l ih =>
    rw [updateWhereEmail_cons, findByEmail_cons, findByEmail_cons]
    by_cases h : u.email = e
    · simp [h, findByEmail_cons, hf]
    · simp [h, ih]

theorem findByEmail_updateWhereEmail_other (l : Store) (e e' : String)
    (f : Usuario → Usuario) (hf : ∀ u, (f u).email = u.email) (hne : e ≠ e') :
    findByEmail (updateWhereEmail l e' f) e = findByEmail l e := by
  have hne' : e' ≠ e := fun hc => hne hc.symm
  induction l with
  | nil => rfl
  | cons u l ih =>
    by_cases h : u.email = e'
    · have h1 : (f u).email ≠ e := by rw [hf, h]; exact hne'
      simp [updateWhereEmail_cons, findByEmail_cons, h, h1, hne', ih]
    · simp [updateWhereEmail_cons, findByEmail_cons, h, ih]

theorem updateWhereEmail_of_not_found (l : Store) (e : String)
    (f : Usuario → Usuario) (h : findByEmail l e = none) :
    updateWhereEmail l e f = l := by
  induction l with
  | nil => rfl
  | cons u l ih =>
    rw [findByEmail_cons] at h
    by_cases hu : u.email = e
    · simp [hu] at h
    · have h2 : findByEmail l e = none := by simpa [hu] using h
      simp [updateWhereEmail_cons, hu, ih h2]

theorem findByEmail_append (l₁ l₂ : Store) (e : String) :
    findByEmail (l₁ ++ l₂) e = (findByEmail l₁ e).or (findByEmail l₂ e) := by
  simp [findByEmail, List.find?_append]

theorem updateWhereEmail_append (l₁ l₂ : Store) (e : String)
    (f : Usuario → Usuario) :
    updateWhereEmail (l₁ ++ l₂) e f =
      updateWhereEmail l₁ e f ++ updateWhereEmail l₂ e f := by
  simp [updateWhereEmail]

theorem eraseTimes_updateWhereEmail_twice (l : Store) (e : String)
    (f g : Usuario → Usuario) (hf : ∀ u, (f u).email = u.email)
    (h : ∀ u, Usuario.eraseTimeFields (g (f u)) = Usuario.eraseTimeFields (f u)) :
    eraseTimes (updateWhereEmail (updateWhereEmail l e f) e g) =
      eraseTimes (updateWhereEmail l e f) := by
  induction l with
  | nil => rfl
  | cons u l ih =>
    have ih2 := ih
    simp only [eraseTimes] at ih2
    by_cases hu : u.email = e
    · have hfe : (f u).email = e := by rw [hf]; exact hu
      simp [updateWhereEmail_cons, hu, hfe, eraseTimes, h u, ih2]
    · simp [updateWhereEmail_cons, hu, eraseTimes, ih2]

theorem tokenOf_updateWhereEmail_keep (l : Store) (e e' : String)
    (f : Usuario → Usuario) (hf : ∀ u, (f u).email = u.email)
    (hk : ∀ u, (f u).api_key = u.api_key) :
    tokenOf (updateWhereEmail l e' f) e = tokenOf l e := by
  by_cases h : e = e'
  · subst h
    rw [tokenOf, findByEmail_updateWhereEmail_self l e f hf]
    cases hfind : findByEmail l e with
    | none => simp [tokenOf, hfind]
    | some r => simp [tokenOf, hfind, hk]
  · rw [tokenOf, findByEmail_updateWhereEmail_other l e e' f hf h, tokenOf]

/-! Case equations for the three handlers. -/

theorem handleCheckout_no_email (session : CheckoutSession) (now : Nat)
    (st : AppState) (h : checkoutEmail session = none) :
    handleCheckoutSessionCompleted session now st = st := by
  unfold handleCheckoutSessionCompleted
  rw [h]

theorem handleCheckout_empty_email (session : CheckoutSession) (now : Nat)
    (st : AppState) (h : checkoutEmail session = some "") :
    handleCheckoutSessionCompleted session now st = st := by
  unfold handleCheckoutSessionCompleted
  rw [h]
  simp

theorem handleCheckout_insert (session : CheckoutSession) (now : Nat)
    (st : AppState) (e : String) (h : checkoutEmail session = some e)
    (hne : e ≠ "") (hfind : findByEmail st.users e = none) :
    handleCheckoutSessionCompleted session now st =
      { users := st.users ++ [checkoutInsert session now e (generateApiKey st.seed)]
        seed := st.seed + 1 } := by
  unfold handleCheckoutSessionCompleted
  rw [h]
  simp [hne, hfind]

theorem handleCheckout_update_keep (session : CheckoutSession) (now : Nat)
    (st : AppState) (e : String) (row : Usuario) (k : String)
    (h : checkoutEmail session = some e) (hne : e ≠ "")
    (hfind : findByEmail st.users e = some row) (hk : row.api_key = some k)
    (hk0 : k ≠ "") :
    handleCheckoutSessionCompleted session now st =
      { st with users := updateWhereEmail st.users e (checkoutUpdate session now k) } := by
  unfold handleCheckoutSessionCompleted
  rw [h]
  simp [hne, hfind, hk, hk0]

theorem handleCheckout_update_fresh (session : CheckoutSession) (now : Nat)
    (st : AppState) (e : String) (row : Usuario)
    (h : checkoutEmail session = some e) (hne : e ≠ "")
    (hfind : findByEmail st.users e = some row)
    (hk : row.api_key = none ∨ row.api_key = some "") :
    handleCheckoutSessionCompleted session now st =
      { users := updateWhereEmail st.users e
          (checkoutUpdate session now (generateApiKey st.seed))
        seed := st.seed + 1 } := by
  unfold handleCheckoutSessionCompleted
  rw [h]
  rcases hk with hk | hk
  · simp [hne, hfind, hk]
  · simp [hne, hfind, hk]

theorem handleInvoicePaid_missing (subs : String → Option StripeSubscription)
    (custs : String → Option StripeCustomer) (invoice : Invoice) (now : Nat)
    (st : AppState)
    (h : invoice.subscription = none ∨ invoice.customer = none ∨
      invoice.subscription = some "" ∨ invoice.customer = some "") :
    handleInvoicePaid subs custs invoice now st = (st, false) := by
  unfold handleInvoicePaid
  rcases h with h | h | h | h
  · rw [h]
  · rw [h]
    cases invoice.subscription <;> rfl
  · rw [h]
    cases invoice.customer <;> simp
  · rw [h]
    cases invoice.subscription <;> simp

theorem handleInvoicePaid_update (subs : String → Option StripeSubscription)
    (custs : String → Option StripeCustomer) (invoice : Invoice) (now : Nat)
    (st : AppState) (sid cid : String) (subscription : StripeSubscription)
    (customer : StripeCustomer) (plan : StripePlan) (email : String)
    (hs : invoice.subscription = some sid) (hc : invoice.customer = some cid)
    (hs0 : sid ≠ "") (hc0 : cid ≠ "")
    (hsub : subs sid = some subscription) (hcust : custs cid = some customer)
    (hplan : subscription.items.head? = some plan)
    (hemail : customer.email = some email) :
    handleInvoicePaid subs custs invoice now st =
      ({ st with users := updateWhereEmail st.users email (invoiceUpdate (resolvePlan plan.interval plan.interval_count (Timestamp.clock now)) now) }, false) := by
  unfold handleInvoicePaid
  rw [hs, hc]
  simp [hs0, hc0, hsub, hcust, hplan, hemail]

theorem handleSubscriptionCanceled_missing (custs : String → Option StripeCustomer)
    (sub : SubscriptionObj) (now : Nat) (st : AppState)
    (h : sub.customer = none ∨ sub.customer = some "") :
    handleSubscriptionCanceled custs sub now st = (st, false) := by
  unfold handleSubscriptionCanceled
  rcases h with h | h
  · rw [h]
  · rw [h]
    simp

theorem handleSubscriptionCanceled_update (custs : String → Option StripeCustomer)
    (sub : SubscriptionObj) (now : Nat) (st : AppState) (cid : String)
    (customer : StripeCustomer) (email : String)
    (hc : sub.customer = some cid) (hc0 : cid ≠ "")
    (hcust : custs cid = some customer) (hemail : customer.email = some email) :
    handleSubscriptionCanceled custs sub now st =
      ({ st with users := updateWhereEmail st.users email (cancelUpdate now) }, false) := by
  unfold handleSubscriptionCanceled
  rw [hc]
  simp [hc0, hcust, hemail]

theorem checkoutUpdate_email (session : CheckoutSession) (now : Nat) (k : String)
    (u : Usuario) : (checkoutUpdate session now k u).email = u.email := rfl

theorem resolvePlan_fst_const (interval : String) (c : Nat) (t0 t1 : Timestamp) :
    (resolvePlan interval c t0).1 = (resolvePlan interval c t1).1 := by
  unfold resolvePlan
  split_ifs <;> rfl

theorem invoiceUpdate_erase_twice (pr1 pr2 : String × Timestamp) (now1 now2 : Nat)
    (hfst : pr2.1 = pr1.1) (u : Usuario) :
    Usuario.eraseTimeFields (invoiceUpdate pr2 now2 (invoiceUpdate pr1 now1 u)) =
      Usuario.eraseTimeFields (invoiceUpdate pr1 now1 u) := by
  simp [invoiceUpdate, Usuario.eraseTimeFields, hfst]

theorem tokenOf_handleInvoicePaid (subs : String → Option StripeSubscription)
    (custs : String → Option StripeCustomer) (invoice : Invoice) (now : Nat)
    (st : AppState) (e : String) :
    tokenOf ((handleInvoicePaid subs custs invoice now st).1).users e = tokenOf st.users e := by
  unfold handleInvoicePaid
  repeat' split
  all_goals first
    | rfl
    | exact tokenOf_updateWhereEmail_keep _ _ _ _ (fun u => rfl) (fun u => rfl)

theorem tokenOf_handleSubscriptionCanceled (custs : String → Option StripeCustomer)
    (sub : SubscriptionObj) (now : Nat) (st : AppState) (e : String) :
    tokenOf ((handleSubscriptionCanceled custs sub now st).1).users e = tokenOf st.users e := by
  unfold handleSubscriptionCanceled
  repeat' split
  all_goals first
    | rfl
    | exact tokenOf_updateWhereEmail_keep _ _ _ _ (fun u => rfl) (fun u => rfl)

theorem tokenOf_handleCheckout (session : CheckoutSession) (now : Nat)
    (st : AppState) (e t : String) (hne : t ≠ "")
    (h : tokenOf st.users e = some t) :
    tokenOf (handleCheckoutSessionCompleted session now st).users e = some t := by
  have h' := h
  rw [tokenOf] at h'
  obtain ⟨r, hr, hrk⟩ := Option.bind_eq_some.mp h'
  cases hmail : checkoutEmail session with
  | none => rw [handleCheckout_no_email session now st hmail]; exact h
  | some em =>
    by_cases hemp : em = ""
    · subst hemp
      rw [handleCheckout_empty_email session now st hmail]
      exact h
    · by_cases heq : em = e
      · subst heq
        rw [handleCheckout_update_keep session now st em r t hmail hemp hr hrk hne]
        rw [tokenOf, findByEmail_updateWhereEmail_self _ _ _ (checkoutUpdate_email session now t), hr]
        simp [checkoutUpdate]
      · have hene : e ≠ em := fun hc => heq hc.symm
        cases hfind : findByEmail st.users em with
        | none =>
          rw [handleCheckout_insert session now st em hmail hemp hfind]
          simp only [tokenOf, findByEmail_append, hr, Option.or_some]
          exact hrk
        | some row =>
          cases hkey : row.api_key with
          | none =>
            rw [handleCheckout_update_fresh session now st em row hmail hemp hfind (Or.inl hkey)]
            rw [tokenOf, findByEmail_updateWhereEmail_other _ _ _ _ (checkoutUpdate_email session now _) hene]
            exact h
          | some k =>
            by_cases hk0 : k = ""
            · subst hk0
              rw [handleCheckout_update_fresh session now st em row hmail hemp hfind (Or.inr hkey)]
              rw [tokenOf, findByEmail_updateWhereEmail_other _ _ _ _ (checkoutUpdate_email session now _) hene]
              exact h
            · rw [handleCheckout_update_keep session now st em row k hmail hemp hfind hkey hk0]
              rw [tokenOf, findByEmail_updateWhereEmail_other _ _ _ _ (checkoutUpdate_email session now _) hene]
              exact h

theorem tokenOf_applyEvent_keep (subs : String → Option StripeSubscription)
    (custs : String → Option StripeCustomer) (ev : StripeEvent) (now : Nat)
    (st : AppState) (e t : String) (hne : t ≠ "")
    (h : tokenOf st.users e = some t) :
    tokenOf ((applyEvent subs custs ev now st).1).users e = some t := by
  cases ev with
  | checkoutSessionCompleted session => exact tokenOf_handleCheckout session now st e t hne h
  | invoicePaid invoice => rw [applyEvent, tokenOf_handleInvoicePaid]; exact h
  | subscriptionDeleted sub => rw [applyEvent, tokenOf_handleSubscriptionCanceled]; exact h
  | other kind => exact h

theorem handleInvoicePaid_subs_failure (subs : String → Option StripeSubscription)
    (custs : String → Option StripeCustomer) (invoice : Invoice) (now : Nat)
    (st : AppState) (sid cid : String)
    (hs : invoice.subscription = some sid) (hc : invoice.customer = some cid)
    (hs0 : sid ≠ "") (hc0 : cid ≠ "") (hsub : subs sid = none) :
    handleInvoicePaid subs custs invoice now st = (st, true) := by
  unfold handleInvoicePaid
  rw [hs, hc]
  simp [hs0, hc0, hsub]

theorem handleInvoicePaid_cust_failure (subs : String → Option StripeSubscription)
    (custs : String → Option StripeCustomer) (invoice : Invoice) (now : Nat)
    (st : AppState) (sid cid : String) (subscription : StripeSubscription)
    (hs : invoice.subscription = some sid) (hc : invoice.customer = some cid)
    (hs0 : sid ≠ "") (hc0 : cid ≠ "") (hsub : subs sid = some subscription)
    (hcust : custs cid = none) :
    handleInvoicePaid subs custs invoice now st = (st, true) := by
  unfold handleInvoicePaid
  rw [hs, hc]
  simp [hs0, hc0, hsub, hcust]

theorem handleInvoicePaid_items_empty (subs : String → Option StripeSubscription)
    (custs : String → Option StripeCustomer) (invoice : Invoice) (now : Nat)
    (st : AppState) (sid cid : String) (subscription : StripeSubscription)
    (customer : StripeCustomer)
    (hs : invoice.subscription = some sid) (hc : invoice.customer = some cid)
    (hs0 : sid ≠ "") (hc0 : cid ≠ "") (hsub : subs sid = some subscription)
    (hcust : custs cid = some customer)
    (hplan : subscription.items.head? = none) :
    handleInvoicePaid subs custs invoice now st = (st, true) := by
  unfold handleInvoicePaid
  rw [hs, hc]
  simp [hs0, hc0, hsub, hcust, hplan]

theorem handleInvoicePaid_no_email (subs : String → Option StripeSubscription)
    (custs : String → Option StripeCustomer) (invoice : Invoice) (now : Nat)
    (st : AppState) (sid cid : String) (subscription : StripeSubscription)
    (customer : StripeCustomer) (plan : StripePlan)
    (hs : invoice.subscription = some sid) (hc : invoice.customer = some cid)
    (hs0 : sid ≠ "") (hc0 : cid ≠ "") (hsub : subs sid = some subscription)
    (hcust : custs cid = some customer)
    (hplan : subscription.items.head? = some plan)
    (hemail : customer.email = none) :
    handleInvoicePaid subs custs invoice now st = (st, false) := by
  unfold handleInvoicePaid
  rw [hs, hc]
  simp [hs0, hc0, hsub, hcust, hplan, hemail]

theorem handleSubscriptionCanceled_cust_failure (custs : String → Option StripeCustomer)
    (sub : SubscriptionObj) (now : Nat) (st : AppState) (cid : String)
    (hc : sub.customer = some cid) (hc0 : cid ≠ "") (hcust : custs cid = none) :
    handleSubscriptionCanceled custs sub now st = (st, true) := by
  unfold handleSubscriptionCanceled
  rw [hc]
  simp [hc0, hcust]

theorem handleSubscriptionCanceled_no_email (custs : String → Option StripeCustomer)
    (sub : SubscriptionObj) (now : Nat) (st : AppState) (cid : String)
    (customer : StripeCustomer)
    (hc : sub.customer = some cid) (hc0 : cid ≠ "")
    (hcust : custs cid = some customer) (hemail : customer.email = none) :
    handleSubscriptionCanceled custs sub now st = (st, false) := by
  unfold handleSubscriptionCanceled
  rw [hc]
  simp [hc0, hcust, hemail]

theorem checkout_update_twice (session : CheckoutSession) (now1 now2 : Nat)
    (l : Store) (em K : String) :
    eraseTimes (updateWhereEmail (updateWhereEmail l em (checkoutUpdate session now1 K)) em (checkoutUpdate session now2 K)) =
      eraseTimes (updateWhereEmail l em (checkoutUpdate session now1 K)) :=
  eraseTimes_updateWhereEmail_twice l em _ _ (fun _ => rfl) (fun _ => rfl)

theorem checkout_idempotent (session : CheckoutSession) (now1 now2 : Nat)
    (st : AppState) :
    eraseTimes (handleCheckoutSessionCompleted session now2 (handleCheckoutSessionCompleted session now1 st)).users =
      eraseTimes (handleCheckoutSessionCompleted session now1 st).users := by
  cases hmail : checkoutEmail session with
  | none =>
    rw [handleCheckout_no_email session now1 st hmail,
      handleCheckout_no_email session now2 st hmail]
  | some em =>
    by_cases hemp : em = ""
    · subst hemp
      rw [handleCheckout_empty_email session now1 st hmail,
        handleCheckout_empty_email session now2 st hmail]
    · cases hfind : findByEmail st.users em with
      | none =>
        rw [handleCheckout_insert session now1 st em hmail hemp hfind]
        have hfind2 : findByEmail (st.users ++ [checkoutInsert session now1 em (generateApiKey st.seed)]) em = some (checkoutInsert session now1 em (generateApiKey st.seed)) := by
          rw [findByEmail_append, hfind]
          simp [findByEmail_cons, checkoutInsert]
        rw [handleCheckout_update_keep session now2 _ em _ (generateApiKey st.seed) hmail hemp hfind2 rfl (generateApiKey_ne_empty st.seed)]
        show eraseTimes (updateWhereEmail (st.users ++ [checkoutInsert session now1 em (generateApiKey st.seed)]) em (checkoutUpdate session now2 (generateApiKey st.seed))) = _
        rw [updateWhereEmail_append, updateWhereEmail_of_not_found st.users em _ hfind]
        have hsingle : updateWhereEmail [checkoutInsert session now1 em (generateApiKey st.seed)] em (checkoutUpdate session now2 (generateApiKey st.seed)) = [checkoutUpdate session now2 (generateApiKey st.seed) (checkoutInsert session now1 em (generateApiKey st.seed))] := by
          simp [updateWhereEmail, checkoutInsert]
        rw [hsingle]
        show eraseTimes (st.users ++ [checkoutUpdate session now2 (generateApiKey st.seed) (checkoutInsert session now1 em (generateApiKey st.seed))]) = eraseTimes (st.users ++ [checkoutInsert session now1 em (generateApiKey st.seed)])
        simp only [eraseTimes, List.map_append]
        rfl
      | some row =>
        cases hkey : row.api_key with
        | none =>
          rw [handleCheckout_update_fresh session now1 st em row hmail hemp hfind (Or.inl hkey)]
          have hfind2 : findByEmail (updateWhereEmail st.users em (checkoutUpdate session now1 (generateApiKey st.seed))) em = some (checkoutUpdate session now1 (generateApiKey st.seed) row) := by
            rw [findByEmail_updateWhereEmail_self _ _ _ (checkoutUpdate_email session now1 _), hfind]
            rfl
          rw [handleCheckout_update_keep session now2 _ em _ (generateApiKey st.seed) hmail hemp hfind2 rfl (generateApiKey_ne_empty st.seed)]
          exact checkout_update_twice session now1 now2 st.users em (generateApiKey st.seed)
        | some k =>
          by_cases hk0 : k = ""
          · subst hk0
            rw [handleCheckout_update_fresh session now1 st em row hmail hemp hfind (Or.inr hkey)]
            have hfind2 : findByEmail (updateWhereEmail st.users em (checkoutUpdate session now1 (generateApiKey st.seed))) em = some (checkoutUpdate session now1 (generateApiKey st.seed) row) := by
              rw [findByEmail_updateWhereEmail_self _ _ _ (checkoutUpdate_email session now1 _), hfind]
              rfl
            rw [handleCheckout_update_keep session now2 _ em _ (generateApiKey st.seed) hmail hemp hfind2 rfl (generateApiKey_ne_empty st.seed)]
            exact checkout_update_twice session now1 now2 st.users em (generateApiKey st.seed)
          · rw [handleCheckout_update_keep session now1 st em row k hmail hemp hfind hkey hk0]
            have hfind2 : findByEmail (updateWhereEmail st.users em (checkoutUpdate session now1 k)) em = some (checkoutUpdate session now1 k row) := by
              rw [findByEmail_updateWhereEmail_self _ _ _ (checkoutUpdate_email session now1 k), hfind]
              rfl
            rw [handleCheckout_update_keep session now2 _ em _ k hmail hemp hfind2 rfl hk0]
            exact checkout_update_twice session now1 now2 st.users em k

theorem invoice_idempotent (subs : String → Option StripeSubscription)
    (custs : String → Option StripeCustomer) (invoice : Invoice)
    (now1 now2 : Nat) (st : AppState) :
    eraseTimes ((handleInvoicePaid subs custs invoice now2 (handleInvoicePaid subs custs invoice now1 st).1).1).users =
      eraseTimes ((handleInvoicePaid subs custs invoice now1 st).1).users := by
  cases hs : invoice.subscription with
  | none =>
    rw [handleInvoicePaid_missing subs custs invoice now1 st (Or.inl hs)]
    show eraseTimes ((handleInvoicePaid subs custs invoice now2 st).1).users = eraseTimes st.users
    rw [handleInvoicePaid_missing subs custs invoice now2 st (Or.inl hs)]
  | some sid =>
    cases hc : invoice.customer with
    | none =>
      rw [handleInvoicePaid_missing subs custs invoice now1 st (Or.inr (Or.inl hc))]
      show eraseTimes ((handleInvoicePaid subs custs invoice now2 st).1).users = eraseTimes st.users
      rw [handleInvoicePaid_missing subs custs invoice now2 st (Or.inr (Or.inl hc))]
    | some cid =>
      by_cases hs0 : sid = ""
      · subst hs0
        rw [handleInvoicePaid_missing subs custs invoice now1 st (Or.inr (Or.inr (Or.inl hs)))]
        show eraseTimes ((handleInvoicePaid subs custs invoice now2 st).1).users = eraseTimes st.users
        rw [handleInvoicePaid_missing subs custs invoice now2 st (Or.inr (Or.inr (Or.inl hs)))]
      · by_cases hc0 : cid = ""
        · subst hc0
          rw [handleInvoicePaid_missing subs custs invoice now1 st (Or.inr (Or.inr (Or.inr hc)))]
          show eraseTimes ((handleInvoicePaid subs custs invoice now2 st).1).users = eraseTimes st.users
          rw [handleInvoicePaid_missing subs custs invoice now2 st (Or.inr (Or.inr (Or.inr hc)))]
        · cases hsub : subs sid with
          | none =>
            rw [handleInvoicePaid_subs_failure subs custs invoice now1 st sid cid hs hc hs0 hc0 hsub]
            show eraseTimes ((handleInvoicePaid subs custs invoice now2 st).1).users = eraseTimes st.users
            rw [handleInvoicePaid_subs_failure subs custs invoice now2 st sid cid hs hc hs0 hc0 hsub]
          | some subscription =>
            cases hcust : custs cid with
            | none =>
              rw [handleInvoicePaid_cust_failure subs custs invoice now1 st sid cid subscription hs hc hs0 hc0 hsub hcust]
              show eraseTimes ((handleInvoicePaid subs custs invoice now2 st).1).users = eraseTimes st.users
              rw [handleInvoicePaid_cust_failure subs custs invoice now2 st sid cid subscription hs hc hs0 hc0 hsub hcust]
            | some customer =>
              cases hplan : subscription.items.head? with
              | none =>
                rw [handleInvoicePaid_items_empty subs custs invoice now1 st sid cid subscription customer hs hc hs0 hc0 hsub hcust hplan]
                show eraseTimes ((handleInvoicePaid subs custs invoice now2 st).1).users = eraseTimes st.users
                rw [handleInvoicePaid_items_empty subs custs invoice now2 st sid cid subscription customer hs hc hs0 hc0 hsub hcust hplan]
              | some plan =>
                cases hemail : customer.email with
                | none =>
                  rw [handleInvoicePaid_no_email subs custs invoice now1 st sid cid subscription customer plan hs hc hs0 hc0 hsub hcust hplan hemail]
                  show eraseTimes ((handleInvoicePaid subs custs invoice now2 st).1).users = eraseTimes st.users
                  rw [handleInvoicePaid_no_email subs custs invoice now2 st sid cid subscription customer plan hs hc hs0 hc0 hsub hcust hplan hemail]
                | some email =>
                  rw [handleInvoicePaid_update subs custs invoice now1 st sid cid subscription customer plan email hs hc hs0 hc0 hsub hcust hplan hemail]
                  rw [handleInvoicePaid_update subs custs invoice now2 _ sid cid subscription customer plan email hs hc hs0 hc0 hsub hcust hplan hemail]
                  exact eraseTimes_updateWhereEmail_twice st.users email _ _ (fun _ => rfl)
                    (invoiceUpdate_erase_twice _ _ now1 now2 (resolvePlan_fst_const plan.interval plan.interval_count _ _))

theorem cancel_idempotent (custs : String → Option StripeCustomer)
    (sub : SubscriptionObj) (now1 now2 : Nat) (st : AppState) :
    eraseTimes ((handleSubscriptionCanceled custs sub now2 (handleSubscriptionCanceled custs sub now1 st).1).1).users =
      eraseTimes ((handleSubscriptionCanceled custs sub now1 st).1).users := by
  cases hc : sub.customer with
  | none =>
    rw [handleSubscriptionCanceled_missing custs sub now1 st (Or.inl hc)]
    show eraseTimes ((handleSubscriptionCanceled custs sub now2 st).1).users = eraseTimes st.users
    rw [handleSubscriptionCanceled_missing custs sub now2 st (Or.inl hc)]
  | some cid =>
    by_cases hc0 : cid = ""
    · subst hc0
      rw [handleSubscriptionCanceled_missing custs sub now1 st (Or.inr hc)]
      show eraseTimes ((handleSubscriptionCanceled custs sub now2 st).1).users = eraseTimes st.users
      rw [handleSubscriptionCanceled_missing custs sub now2 st (Or.inr hc)]
    · cases hcust : custs cid with
      | none =>
        rw [handleSubscriptionCanceled_cust_failure custs sub now1 st cid hc hc0 hcust]
        show eraseTimes ((handleSubscriptionCanceled custs sub now2 st).1).users = eraseTimes st.users
        rw [handleSubscriptionCanceled_cust_failure custs sub now2 st cid hc hc0 hcust]
      | some customer =>
        cases hemail : customer.email with
        | none =>
          rw [handleSubscriptionCanceled_no_email custs sub now1 st cid customer hc hc0 hcust hemail]
          show eraseTimes ((handleSubscriptionCanceled custs sub now2 st).1).users = eraseTimes st.users
          rw [handleSubscriptionCanceled_no_email custs sub now2 st cid customer hc hc0 hcust hemail]
        | some email =>
          rw [handleSubscriptionCanceled_update custs sub now1 st cid customer email hc hc0 hcust hemail]
          rw [handleSubscriptionCanceled_update custs sub now2 _ cid customer email hc hc0 hcust hemail]
          exact eraseTimes_updateWhereEmail_twice st.users email _ _ (fun _ => rfl) (fun _ => rfl)

/-! Concrete fixtures used by witnesses and counterexamples. -/

/-- A checkout session with email, customer id and a plan label. -/
def sessionW : CheckoutSession :=
  { customer_details := some { email := some "a@x.com" }
    customer := some "cus_1"
    metadata := some { plan := some "Plano Anual" } }

/-- A checkout session for an email that already has a row. -/
def sessionUpdW : CheckoutSession :=
  { customer_details := some { email := some "b@x.com" }
    customer := some "cus_2"
    metadata := some { plan := some "Plano Trimestral" } }

/-- A checkout session whose event carries no metadata object. -/
def sessionNoMetaW : CheckoutSession :=
  { customer_details := some { email := some "c@x.com" }
    customer := some "cus_3"
    metadata := none }

/-- An existing row for b@x.com with an already-set access token and a NULL
`data_modificacao`. -/
def uW : Usuario :=
  { email := "b@x.com", nome := none, stripe_customer_id := none
    status := "inativo", plano := none, api_key := some "tok1"
    data_criacao := Timestamp.clock 0, data_assinatura := none
    data_renovacao := none, data_modificacao := none }

/-- An existing row for a@x.com. -/
def rW : Usuario :=
  { email := "a@x.com", nome := none, stripe_customer_id := some "cus_1"
    status := "inativo", plano := some "Plano Anual", api_key := some "tok2"
    data_criacao := Timestamp.clock 1
    data_assinatura := some (Timestamp.clock 1)
    data_renovacao := none, data_modificacao := none }

/-- Provider subscription lookup for the fixtures. -/
def subsW : String → Option StripeSubscription :=
  fun sid =>
    if sid == "sub_1" then some { items := [{ interval := "month", interval_count := 3 }] }
    else none

/-- Provider customer lookup for the fixtures. -/
def custsW : String → Option StripeCustomer :=
  fun cid =>
    if cid == "cus_1" then some { email := some "a@x.com" }
    else if cid == "cus_2" then some { email := some "b@x.com" }
    else none

/-- An invoice event for the fixtures. -/
def invoiceW : Invoice := { subscription := some "sub_1", customer := some "cus_1" }

/-- A cancellation event for the fixtures. -/
def subW : SubscriptionObj := { customer := some "cus_2" }

/-- A mixed event sequence all touching b@x.com. -/
def evsW : List (StripeEvent × Nat) :=
  [(StripeEvent.checkoutSessionCompleted sessionUpdW, 3),
   (StripeEvent.invoicePaid { subscription := some "sub_1", customer := some "cus_2" }, 4),
   (StripeEvent.subscriptionDeleted subW, 5)]

/-! The claims. -/

/-- C1: For every CheckoutCompleted event: with no (truthy) email the handler
is a no-op; with an email and no existing row, a row is created with status
ativo, the event's plan label, the event's customer id, a freshly issued
access token, subscribedAt = now and renewsAt = now plus 3 months; with an
existing row the row is updated to status ativo with subscribedAt = now and
renewsAt = now plus 3 months, preserving the already-set (hence nonempty,
being an issued key) access token. -/
theorem claim_checkoutCompleted (session : CheckoutSession) (now : Nat) (st : AppState) :
    ((checkoutEmail session = none ∨ checkoutEmail session = some "") →
      handleCheckoutSessionCompleted session now st = st) ∧
    (∀ e, checkoutEmail session = some e → e ≠ "" → findByEmail st.users e = none →
      handleCheckoutSessionCompleted session now st =
        { users := st.users ++ [{ email := e, nome := none, stripe_customer_id := session.customer, status := "ativo", plano := checkoutPlanName session, api_key := some (generateApiKey st.seed), data_criacao := Timestamp.clock now, data_assinatura := some (Timestamp.clock now), data_renovacao := some (Timestamp.addMonths (Timestamp.clock now) 3), data_modificacao := none }]
          seed := st.seed + 1 }) ∧
    (∀ e r t, checkoutEmail session = some e → e ≠ "" →
      findByEmail st.users e = some r → r.api_key = some t → t ≠ "" →
      handleCheckoutSessionCompleted session now st =
        { st with users := updateWhereEmail st.users e (fun u => { u with stripe_customer_id := session.customer, status := "ativo", plano := checkoutPlanName session, api_key := some t, data_assinatura := some (Timestamp.clock now), data_renovacao := some (Timestamp.addMonths (Timestamp.clock now) 3) }) }) := by
  refine ⟨?_, ?_, ?_⟩
  · rintro (h | h)
    · exact handleCheckout_no_email session now st h
    · exact handleCheckout_empty_email session now st h
  · intro e he hne hfind
    exact handleCheckout_insert session now st e he hne hfind
  · intro e r t he hne hfind hk hk0
    exact handleCheckout_update_keep session now st e r t he hne hfind hk hk0

/-- C1 witness: checkout for a@x.com on an empty store creates the row with
status ativo, the label from the session metadata, a fresh key, and the
three-month renewal window. -/
theorem claim_checkoutCompleted_witness :
    handleCheckoutSessionCompleted sessionW 5 { users := [], seed := 0 } =
      { users := [{ email := "a@x.com", nome := none, stripe_customer_id := sessionW.customer, status := "ativo", plano := checkoutPlanName sessionW, api_key := some (generateApiKey 0), data_criacao := Timestamp.clock 5, data_assinatura := some (Timestamp.clock 5), data_renovacao := some (Timestamp.addMonths (Timestamp.clock 5) 3), data_modificacao := none }]
        seed := 1 } :=
  (claim_checkoutCompleted sessionW 5 { users := [], seed := 0 }).2.1 "a@x.com" rfl (by decide) rfl

/-- C2 counterexample: the claim says any combination other than month/3,
year/1 and month/1 renews at from + intervalCount × intervalUnit; but for
month/6 the code renews at from + 1 month, which differs from from + 6
months. -/
theorem claim_planResolution_counterexample :
    resolvePlan "month" 6 (Timestamp.clock 0) =
      ("Plano Personalizado", Timestamp.addMonths (Timestamp.clock 0) 1) ∧
    Timestamp.addMonths (Timestamp.clock 0) 1 ≠ Timestamp.addMonths (Timestamp.clock 0) 6 :=
  ⟨rfl, by decide⟩

/-- C2 (amended): on InvoicePaid, interval year (any count) resolves to
Plano Anual with renewal = from + 1 year; month/3 resolves to Plano
Trimestral with renewal = from + 3 months; every other combination,
including month/1, resolves to Plano Personalizado with renewal = from + 1
month. -/
theorem claim_planResolution (t0 : Timestamp) :
    (∀ count, resolvePlan "year" count t0 = ("Plano Anual", Timestamp.addYears t0 1)) ∧
    resolvePlan "month" 3 t0 = ("Plano Trimestral", Timestamp.addMonths t0 3) ∧
    (∀ count, count ≠ 3 →
      resolvePlan "month" count t0 = ("Plano Personalizado", Timestamp.addMonths t0 1)) ∧
    (∀ interval count, interval ≠ "year" → interval ≠ "month" →
      resolvePlan interval count t0 = ("Plano Personalizado", Timestamp.addMonths t0 1)) := by
  refine ⟨fun count => rfl, rfl, ?_, ?_⟩
  · intro count hc
    unfold resolvePlan
    simp [hc]
  · intro interval count hy hm
    unfold resolvePlan
    simp [hy, hm]

/-- C2 witness: month/6 and week/2 both fall to the custom plan with a
one-month renewal. -/
theorem claim_planResolution_witness :
    resolvePlan "month" 6 (Timestamp.clock 2) =
      ("Plano Personalizado", Timestamp.addMonths (Timestamp.clock 2) 1) ∧
    resolvePlan "week" 2 (Timestamp.clock 2) =
      ("Plano Personalizado", Timestamp.addMonths (Timestamp.clock 2) 1) :=
  ⟨(claim_planResolution (Timestamp.clock 2)).2.2.1 6 (by decide),
   (claim_planResolution (Timestamp.clock 2)).2.2.2 "week" 2 (by decide) (by decide)⟩

/-- C3: once a (nonempty, as every issued key is) access token is stored for
an email, no later sequence of webhook events replaces it. -/
theorem claim_accessTokenStable (subs : String → Option StripeSubscription)
    (custs : String → Option StripeCustomer) (evs : List (StripeEvent × Nat))
    (st : AppState) (e t : String) (hne : t ≠ "")
    (h : tokenOf st.users e = some t) :
    tokenOf (applyEvents subs custs evs st).users e = some t := by
  induction evs generalizing st with
  | nil => exact h
  | cons p evs ih =>
    exact ih _ (tokenOf_applyEvent_keep subs custs p.1 p.2 st e t hne h)

/-- C3 witness: b@x.com holds token tok1; after a checkout, an invoice and a
cancellation all touching b@x.com, the token is still tok1. -/
theorem claim_accessTokenStable_witness :
    tokenOf ({ users := [uW], seed := 0 } : AppState).users "b@x.com" = some "tok1" ∧
    tokenOf (applyEvents subsW custsW evsW { users := [uW], seed := 0 }).users "b@x.com" = some "tok1" :=
  ⟨rfl, claim_accessTokenStable subsW custsW evsW { users := [uW], seed := 0 } "b@x.com" "tok1" (by decide) rfl⟩

/-- C4: every reconciliation transition is idempotent on the table up to the
time-derived fields: applying any verified event twice (at clock readings
now1 then now2) leaves the same rows as applying it once, after erasing
data_assinatura, data_renovacao and data_modificacao. -/
theorem claim_reconcileIdempotent (subs : String → Option StripeSubscription)
    (custs : String → Option StripeCustomer) (ev : StripeEvent)
    (now1 now2 : Nat) (st : AppState) :
    eraseTimes ((applyEvent subs custs ev now2 (applyEvent subs custs ev now1 st).1).1).users =
      eraseTimes ((applyEvent subs custs ev now1 st).1).users := by
  cases ev with
  | checkoutSessionCompleted session => exact checkout_idempotent session now1 now2 st
  | invoicePaid invoice => exact invoice_idempotent subs custs invoice now1 now2 st
  | subscriptionDeleted sub => exact cancel_idempotent custs sub now1 now2 st
  | other kind => rfl

/-- C5 counterexample: invoiceW resolves via custsW to a@x.com, which has no
row in the empty store; the handler leaves the store unchanged and its error
flag is false — the situation is a silent no-op, not a reportable error as
the claim states. -/
theorem claim_invoicePaid_counterexample :
    handleInvoicePaid subsW custsW invoiceW 7 { users := [], seed := 0 } =
      ({ users := [], seed := 0 }, false) := rfl

/-- C5 (amended): for every InvoicePaid event: if the subscription id or
customer id is missing (falsy) the operation is a no-op; otherwise the
customer id is resolved to an email and an existing row is updated to status
ativo, plan = the resolved plan name, renewsAt = the resolved renewal date
and modifiedAt = now; if no row exists for the resolved email the handler is
a silent no-op: no row is created and no error is reported. -/
theorem claim_invoicePaid (subs : String → Option StripeSubscription)
    (custs : String → Option StripeCustomer) (invoice : Invoice) (now : Nat)
    (st : AppState) :
    ((invoice.subscription = none ∨ invoice.customer = none ∨
        invoice.subscription = some "" ∨ invoice.customer = some "") →
      handleInvoicePaid subs custs invoice now st = (st, false)) ∧
    (∀ sid cid subscription customer plan email r,
      invoice.subscription = some sid → invoice.customer = some cid →
      sid ≠ "" → cid ≠ "" → subs sid = some subscription →
      custs cid = some customer → subscription.items.head? = some plan →
      customer.email = some email → findByEmail st.users email = some r →
      findByEmail ((handleInvoicePaid subs custs invoice now st).1).users email =
        some { r with status := "ativo", plano := some (resolvePlan plan.interval plan.interval_count (Timestamp.clock now)).1, data_renovacao := some (resolvePlan plan.interval plan.interval_count (Timestamp.clock now)).2, data_modificacao := some (Timestamp.clock now) }) ∧
    (∀ sid cid subscription customer plan email,
      invoice.subscription = some sid → invoice.customer = some cid →
      sid ≠ "" → cid ≠ "" → subs sid = some subscription →
      custs cid = some customer → subscription.items.head? = some plan →
      customer.email = some email → findByEmail st.users email = none →
      handleInvoicePaid subs custs invoice now st = (st, false)) := by
  refine ⟨?_, ?_, ?_⟩
  · exact handleInvoicePaid_missing subs custs invoice now st
  · intro sid cid subscription customer plan email r hs hc hs0 hc0 hsub hcust hplan hemail hfind
    rw [handleInvoicePaid_update subs custs invoice now st sid cid subscription customer plan email hs hc hs0 hc0 hsub hcust hplan hemail]
    show findByEmail (updateWhereEmail st.users email (invoiceUpdate (resolvePlan plan.interval plan.interval_count (Timestamp.clock now)) now)) email = _
    rw [findByEmail_updateWhereEmail_self st.users email (invoiceUpdate (resolvePlan plan.interval plan.interval_count (Timestamp.clock now)) now) (fun u => rfl), hfind]
    rfl
  · intro sid cid subscription customer plan email hs hc hs0 hc0 hsub hcust hplan hemail hfind
    rw [handleInvoicePaid_update subs custs invoice now st sid cid subscription customer plan email hs hc hs0 hc0 hsub hcust hplan hemail]
    rw [updateWhereEmail_of_not_found st.users email _ hfind]

/-- C5 witness: a paid month/3 invoice for cus_1 updates the existing
a@x.com row to status ativo, the quarterly plan, the resolved renewal date
and a fresh modifiedAt. -/
theorem claim_invoicePaid_witness :
    findByEmail ((handleInvoicePaid subsW custsW invoiceW 7 { users := [rW], seed := 0 }).1).users "a@x.com" =
      some { rW with status := "ativo", plano := some (resolvePlan "month" 3 (Timestamp.clock 7)).1, data_renovacao := some (resolvePlan "month" 3 (Timestamp.clock 7)).2, data_modificacao := some (Timestamp.clock 7) } :=
  (claim_invoicePaid subsW custsW invoiceW 7 { users := [rW], seed := 0 }).2.1
    "sub_1" "cus_1" { items := [{ interval := "month", interval_count := 3 }] }
    { email := some "a@x.com" } { interval := "month", interval_count := 3 }
    "a@x.com" rW rfl rfl (by decide) (by decide) rfl rfl rfl rfl rfl

/-- C6: for every SubscriptionCanceled event: a missing (falsy) customer id
is a no-op; otherwise the row for the resolved email is set to status
inativo with modifiedAt = now, all other fields (in particular plano and
data_renovacao) unchanged; and with no row for the resolved email the event
changes nothing and creates no row. -/
theorem claim_subscriptionCanceled (custs : String → Option StripeCustomer)
    (sub : SubscriptionObj) (now : Nat) (st : AppState) :
    ((sub.customer = none ∨ sub.customer = some "") →
      handleSubscriptionCanceled custs sub now st = (st, false)) ∧
    (∀ cid customer email r, sub.customer = some cid → cid ≠ "" →
      custs cid = some customer → customer.email = some email →
      findByEmail st.users email = some r →
      findByEmail ((handleSubscriptionCanceled custs sub now st).1).users email =
        some { r with status := "inativo", data_modificacao := some (Timestamp.clock now) }) ∧
    (∀ cid customer email, sub.customer = some cid → cid ≠ "" →
      custs cid = some customer → customer.email = some email →
      findByEmail st.users email = none →
      handleSubscriptionCanceled custs sub now st = (st, false)) := by
  refine ⟨?_, ?_, ?_⟩
  · exact handleSubscriptionCanceled_missing custs sub now st
  · intro cid customer email r hc hc0 hcust hemail hfind
    rw [handleSubscriptionCanceled_update custs sub now st cid customer email hc hc0 hcust hemail]
    show findByEmail (updateWhereEmail st.users email (cancelUpdate now)) email = _
    rw [findByEmail_updateWhereEmail_self st.users email (cancelUpdate now) (fun u => rfl), hfind]
    rfl
  · intro cid customer email hc hc0 hcust hemail hfind
    rw [handleSubscriptionCanceled_update custs sub now st cid customer email hc hc0 hcust hemail]
    rw [updateWhereEmail_of_not_found st.users email _ hfind]

/-- C6 witness: cancelling cus_2 sets the b@x.com row to inativo with
modifiedAt = now 8, leaving its other fields untouched. -/
theorem claim_subscriptionCanceled_witness :
    findByEmail ((handleSubscriptionCanceled custsW subW 8 { users := [uW], seed := 0 }).1).users "b@x.com" =
      some { uW with status := "inativo", data_modificacao := some (Timestamp.clock 8) } :=
  (claim_subscriptionCanceled custsW subW 8 { users := [uW], seed := 0 }).2.1
    "cus_2" { email := some "b@x.com" } "b@x.com" uW rfl (by decide) rfl rfl rfl

/-- C7 counterexample: the CheckoutCompleted update path writes to the
existing b@x.com row (its status flips to ativo) yet leaves
data_modificacao NULL instead of setting it to now, refuting the claim that
every update path sets modifiedAt. -/
theorem claim_modifiedAt_counterexample :
    (findByEmail (handleCheckoutSessionCompleted sessionUpdW 9 { users := [uW], seed := 0 }).users "b@x.com").map (fun u => (u.status, u.data_modificacao)) = some ("ativo", none) ∧
    some (("ativo", none) : String × Option Timestamp) ≠ some ("ativo", some (Timestamp.clock 9)) :=
  ⟨rfl, by decide⟩

/-- C7 (amended): the InvoicePaid and SubscriptionCanceled update paths set
modifiedAt = now; the CheckoutCompleted paths never touch modifiedAt — the
update path leaves the stored value unchanged and the create path leaves it
NULL. -/
theorem claim_modifiedAt (session : CheckoutSession)
    (subs : String → Option StripeSubscription)
    (custs : String → Option StripeCustomer) (invoice : Invoice)
    (sub : SubscriptionObj) (now : Nat) (st : AppState) :
    (∀ e r, checkoutEmail session = some e → e ≠ "" → findByEmail st.users e = some r →
      (findByEmail (handleCheckoutSessionCompleted session now st).users e).map (fun u => u.data_modificacao) = some r.data_modificacao) ∧
    (∀ e, checkoutEmail session = some e → e ≠ "" → findByEmail st.users e = none →
      (findByEmail (handleCheckoutSessionCompleted session now st).users e).map (fun u => u.data_modificacao) = some none) ∧
    (∀ sid cid subscription customer plan email r,
      invoice.subscription = some sid → invoice.customer = some cid →
      sid ≠ "" → cid ≠ "" → subs sid = some subscription →
      custs cid = some customer → subscription.items.head? = some plan →
      customer.email = some email → findByEmail st.users email = some r →
      (findByEmail ((handleInvoicePaid subs custs invoice now st).1).users email).map (fun u => u.data_modificacao) = some (some (Timestamp.clock now))) ∧
    (∀ cid customer email r, sub.customer = some cid → cid ≠ "" →
      custs cid = some customer → customer.email = some email →
      findByEmail st.users email = some r →
      (findByEmail ((handleSubscriptionCanceled custs sub now st).1).users email).map (fun u => u.data_modificacao) = some (some (Timestamp.clock now))) := by
  refine ⟨?_, ?_, ?_, ?_⟩
  · intro e r he hne hfind
    cases hkey : r.api_key with
    | none =>
      rw [handleCheckout_update_fresh session now st e r he hne hfind (Or.inl hkey)]
      show (findByEmail (updateWhereEmail st.users e (checkoutUpdate session now (generateApiKey st.seed))) e).map (fun u => u.data_modificacao) = _
      rw [findByEmail_updateWhereEmail_self st.users e (checkoutUpdate session now (generateApiKey st.seed)) (checkoutUpdate_email session now _), hfind]
      rfl
    | some k =>
      by_cases hk0 : k = ""
      · subst hk0
        rw [handleCheckout_update_fresh session now st e r he hne hfind (Or.inr hkey)]
        show (findByEmail (updateWhereEmail st.users e (checkoutUpdate session now (generateApiKey st.seed))) e).map (fun u => u.data_modificacao) = _
        rw [findByEmail_updateWhereEmail_self st.users e (checkoutUpdate session now (generateApiKey st.seed)) (checkoutUpdate_email session now _), hfind]
        rfl
      · rw [handleCheckout_update_keep session now st e r k he hne hfind hkey hk0]
        show (findByEmail (updateWhereEmail st.users e (checkoutUpdate session now k)) e).map (fun u => u.data_modificacao) = _
        rw [findByEmail_updateWhereEmail_self st.users e (checkoutUpdate session now k) (checkoutUpdate_email session now k), hfind]
        rfl
  · intro e he hne hfind
    rw [handleCheckout_insert session now st e he hne hfind]
    show (findByEmail (st.users ++ [checkoutInsert session now e (generateApiKey st.seed)]) e).map (fun u => u.data_modificacao) = _
    rw [findByEmail_append, hfind]
    simp [findByEmail_cons, checkoutInsert]
  · intro sid cid subscription customer plan email r hs hc hs0 hc0 hsub hcust hplan hemail hfind
    rw [handleInvoicePaid_update subs custs invoice now st sid cid subscription customer plan email hs hc hs0 hc0 hsub hcust hplan hemail]
    show (findByEmail (updateWhereEmail st.users email (invoiceUpdate (resolvePlan plan.interval plan.interval_count (Timestamp.clock now)) now)) email).map (fun u => u.data_modificacao) = _
    rw [findByEmail_updateWhereEmail_self st.users email (invoiceUpdate (resolvePlan plan.interval plan.interval_count (Timestamp.clock now)) now) (fun u => rfl), hfind]
    rfl
  · intro cid customer email r hc hc0 hcust hemail hfind
    rw [handleSubscriptionCanceled_update custs sub now st cid customer email hc hc0 hcust hemail]
    show (findByEmail (updateWhereEmail st.users email (cancelUpdate now)) email).map (fun u => u.data_modificacao) = _
    rw [findByEmail_updateWhereEmail_self st.users email (cancelUpdate now) (fun u => rfl), hfind]
    rfl

/-- C7 witness: a cancellation at clock 11 stamps modifiedAt on the
b@x.com row. -/
theorem claim_modifiedAt_witness :
    (findByEmail ((handleSubscriptionCanceled custsW subW 11 { users := [uW], seed := 0 }).1).users "b@x.com").map (fun u => u.data_modificacao) = some (some (Timestamp.clock 11)) :=
  (claim_modifiedAt sessionW subsW custsW invoiceW subW 11 { users := [uW], seed := 0 }).2.2.2
    "cus_2" { email := some "b@x.com" } "b@x.com" uW rfl (by decide) rfl rfl rfl

/-- C8: a failed signature verification yields a 400 and no dispatch (the
state is returned untouched); a verified event is always answered with the
success body, whatever the reconciliation outcome; a verified event of an
unrecognized kind changes no state. -/
theorem claim_webhook (subs : String → Option StripeSubscription)
    (custs : String → Option StripeCustomer)
    (verified : Except String StripeEvent) (now : Nat) (st : AppState) :
    (∀ msg, verified = Except.error msg →
      webhookStripe subs custs verified now st = (WebhookResponse.webhookError msg, st)) ∧
    (∀ ev, verified = Except.ok ev →
      (webhookStripe subs custs verified now st).1 = WebhookResponse.success) ∧
    (∀ kind, verified = Except.ok (StripeEvent.other kind) →
      webhookStripe subs custs verified now st = (WebhookResponse.success, st)) := by
  refine ⟨?_, ?_, ?_⟩ <;> intro x hx <;> subst hx <;> rfl

/-- C8 witness: a bad signature is answered with the 400 branch and leaves
the store alone; an unhandled event kind is acknowledged with success and
changes nothing. -/
theorem claim_webhook_witness :
    webhookStripe subsW custsW (Except.error "assinatura inválida") 2 { users := [uW], seed := 0 } =
      (WebhookResponse.webhookError "assinatura inválida", { users := [uW], seed := 0 }) ∧
    webhookStripe subsW custsW (Except.ok (StripeEvent.other "payment_intent.created")) 2 { users := [uW], seed := 0 } =
      (WebhookResponse.success, { users := [uW], seed := 0 }) :=
  ⟨(claim_webhook subsW custsW (Except.error "assinatura inválida") 2 { users := [uW], seed := 0 }).1 "assinatura inválida" rfl,
   (claim_webhook subsW custsW (Except.ok (StripeEvent.other "payment_intent.created")) 2 { users := [uW], seed := 0 }).2.2 "payment_intent.created" rfl⟩

/-- C9: the create-checkout-session route accepts exactly the plan ids
trimestral (month/3 quarterly offer) and anual (year/1 annual offer); any
other id, or a missing one, is answered with a 400 error body and no
session is created. -/
theorem claim_createCheckoutSession :
    createCheckoutSessionRoute (some "trimestral") =
      CreateCheckoutResult.sessionCreated { amount := 7500, interval := "month", intervalCount := 3, planName := "Plano Trimestral" } ∧
    createCheckoutSessionRoute (some "anual") =
      CreateCheckoutResult.sessionCreated { amount := 18000, interval := "year", intervalCount := 1, planName := "Plano Anual" } ∧
    createCheckoutSessionRoute none = CreateCheckoutResult.badRequest "Plano não especificado" ∧
    (∀ pid, pid ≠ "trimestral" → pid ≠ "anual" →
      ∃ msg, createCheckoutSessionRoute (some pid) = CreateCheckoutResult.badRequest msg) := by
  refine ⟨rfl, rfl, rfl, ?_⟩
  intro pid h1 h2
  by_cases hp : pid = ""
  · exact ⟨"Plano não especificado", by simp [createCheckoutSessionRoute, hp]⟩
  · exact ⟨"Plano inválido", by simp [createCheckoutSessionRoute, hp, h1, h2]⟩

/-- C9 witness: the unknown plan id mensal is rejected with a 400 error
body. -/
theorem claim_createCheckoutSession_witness :
    ∃ msg, createCheckoutSessionRoute (some "mensal") = CreateCheckoutResult.badRequest msg :=
  claim_createCheckoutSession.2.2.2 "mensal" (by decide) (by decide)

/-- C10: when the checkout session carries no metadata object, the plan
written to the row is the literal desconhecido, on the create path and on
every update path. -/
theorem claim_metadataDesconhecido (session : CheckoutSession) (now : Nat)
    (st : AppState) (hmeta : session.metadata = none) :
    checkoutPlanName session = some "desconhecido" ∧
    (∀ e, checkoutEmail session = some e → e ≠ "" → findByEmail st.users e = none →
      (findByEmail (handleCheckoutSessionCompleted session now st).users e).map (fun u => u.plano) = some (some "desconhecido")) ∧
    (∀ e r, checkoutEmail session = some e → e ≠ "" → findByEmail st.users e = some r →
      (findByEmail (handleCheckoutSessionCompleted session now st).users e).map (fun u => u.plano) = some (some "desconhecido")) := by
  have hplan : checkoutPlanName session = some "desconhecido" := by
    unfold checkoutPlanName
    rw [hmeta]
  refine ⟨hplan, ?_, ?_⟩
  · intro e he hne hfind
    rw [handleCheckout_insert session now st e he hne hfind]
    show (findByEmail (st.users ++ [checkoutInsert session now e (generateApiKey st.seed)]) e).map (fun u => u.plano) = _
    rw [findByEmail_append, hfind]
    simp [findByEmail_cons, checkoutInsert, hplan]
  · intro e r he hne hfind
    cases hkey : r.api_key with
    | none =>
      rw [handleCheckout_update_fresh session now st e r he hne hfind (Or.inl hkey)]
      show (findByEmail (updateWhereEmail st.users e (checkoutUpdate session now (generateApiKey st.seed))) e).map (fun u => u.plano) = _
      rw [findByEmail_updateWhereEmail_self st.users e (checkoutUpdate session now (generateApiKey st.seed)) (checkoutUpdate_email session now _), hfind]
      simp [checkoutUpdate, hplan]
    | some k =>
      by_cases hk0 : k = ""
      · subst hk0
        rw [handleCheckout_update_fresh session now st e r he hne hfind (Or.inr hkey)]
        show (findByEmail (updateWhereEmail st.users e (checkoutUpdate session now (generateApiKey st.seed))) e).map (fun u => u.plano) = _
        rw [findByEmail_updateWhereEmail_self st.users e (checkoutUpdate session now (generateApiKey st.seed)) (checkoutUpdate_email session now _), hfind]
        simp [checkoutUpdate, hplan]
      · rw [handleCheckout_update_keep session now st e r k he hne hfind hkey hk0]
        show (findByEmail (updateWhereEmail st.users e (checkoutUpdate session now k)) e).map (fun u => u.plano) = _
        rw [findByEmail_updateWhereEmail_self st.users e (checkoutUpdate session now k) (checkoutUpdate_email session now k), hfind]
        simp [checkoutUpdate, hplan]

/-- C10 witness: a checkout without metadata for c@x.com creates the row
with plan desconhecido. -/
theorem claim_metadataDesconhecido_witness :
    (findByEmail (handleCheckoutSessionCompleted sessionNoMetaW 6 { users := [], seed := 0 }).users "c@x.com").map (fun u => u.plano) = some (some "desconhecido") :=
  (claim_metadataDesconhecido sessionNoMetaW 6 { users := [], seed := 0 } rfl).2.1
    "c@x.com" rfl (by decide) rfl
